import Mathlib

/-!
Verification of the AutoProf adaptive sampling / integration / jacobian core.

This file shallowly embeds the numerically relevant parts of the repository
(`autoprof/image/target_image.py`, `autoprof/models/model_object.py`,
`autoprof/models/group_model_object.py`, `autoprof/utils/initialize/center.py`)
and proves or refutes the frozen behavioural claims about them.

Conventions of the embedding:
- floating point data is modelled by `ℚ`; a NaN produced by a 0/0 division is
  modelled by an `Option` carrying `none`;
- 2D numpy/torch arrays are modelled by `Arr α`: an explicit shape together
  with an entry function;
- python exceptions (`raise`, failed `assert`) are modelled by `Except String`
  results whose error string records the exception;
- python's substring test `needle in hay` is modelled by `strContains`;
- python's `int(round x)` (banker's rounding) is modelled by `pyRound`.
-/

/-- Substring search helper: does `needle` occur as a prefix of some suffix. -/
def strContainsAux (needle : List Char) : List Char → Bool
  | [] => needle.isPrefixOf []
  | c :: rest => needle.isPrefixOf (c :: rest) || strContainsAux needle rest

/-- Python's `needle in hay` substring containment on strings. -/
def strContains (needle hay : String) : Bool :=
  strContainsAux needle.toList hay.toList

/-- Floor of a rational, written so that it evaluates by kernel reduction
(`Int.floor` of `ℚ` does not reduce). -/
def ratFloor (q : ℚ) : ℤ := q.num.fdiv q.den

/-- Python's `round` on a real value: round half to even (banker's rounding),
as used by `int(round(...))` in `center_of_mass`. -/
def pyRound (q : ℚ) : ℤ :=
  let f := ratFloor q
  let r := q - f
  if r < 1/2 then f else if 1/2 < r then f + 1 else if f % 2 = 0 then f else f + 1

/-- A 2D array (numpy/torch tensor) with an explicit shape and an entry
function; only indices below the bounds are meaningful. -/
structure Arr (α : Type) where
  rows : Nat
  cols : Nat
  entry : Nat → Nat → α

/-- Shape of an array, as compared by `assert a.shape == b.shape`. -/
def Arr.shape {α : Type} (A : Arr α) : Nat × Nat := (A.rows, A.cols)

/-- The array `torch.ones_like(data)`. -/
def onesLike (A : Arr ℚ) : Arr ℚ := ⟨A.rows, A.cols, fun _ _ => 1⟩

/-- The array `torch.zeros_like(data, dtype=torch.bool)`. -/
def falseLike (A : Arr ℚ) : Arr Bool := ⟨A.rows, A.cols, fun _ _ => false⟩

/-- Block pixel-sum reduction: entry `(i, j)` of the result is the sum of the
`scale × scale` block of `A` starting at `(i * scale, j * scale)`; this is
numpy's `A[: MS * scale, : NS * scale].reshape(MS, scale, NS, scale).sum(axis=(1, 3))`. -/
def Arr.blockSumAt (A : Arr ℚ) (MS NS scale : Nat) : Arr ℚ :=
  ⟨MS, NS, fun i j =>
    ((List.range scale).map (fun a =>
      ((List.range scale).map (fun b => A.entry (i * scale + a) (j * scale + b))).sum)).sum⟩

/-- Block boolean-maximum reduction: entry `(i, j)` of the result is the
maximum (i.e. the disjunction) over the `scale × scale` block of `A` starting
at `(i * scale, j * scale)`; this is numpy's
`A[: MS * scale, : NS * scale].reshape(MS, scale, NS, scale).amax(axis=(1, 3))`
on a boolean array. -/
def Arr.blockAnyAt (A : Arr Bool) (MS NS scale : Nat) : Arr Bool :=
  ⟨MS, NS, fun i j =>
    (List.range scale).any (fun a =>
      (List.range scale).any (fun b => A.entry (i * scale + a) (j * scale + b)))⟩

/-- The `Target_Image` state relevant to variance/mask/psf handling
(`autoprof/image/target_image.py`): the pixel data plus the three optional
auxiliary planes stored in `self._variance`, `self._mask`, `self._psf`. -/
structure Target_Image where
  data : Arr ℚ
  _variance : Option (Arr ℚ)
  _mask : Option (Arr Bool)
  _psf : Option (Arr ℚ)

namespace Target_Image

/-- Method `Target_Image.set_variance`: `None` clears the plane; otherwise
`assert variance.shape == self.data.shape, "variance must have same shape as data"`. -/
def set_variance (img : Target_Image) (variance : Option (Arr ℚ)) :
    Except String Target_Image :=
  match variance with
  | none => .ok { img with _variance := none }
  | some v =>
    if v.shape = img.data.shape then .ok { img with _variance := some v }
    else .error "AssertionError: variance must have same shape as data"

/-- Method `Target_Image.set_mask`: `None` clears the plane; otherwise
`assert mask.shape == self.data.shape, "mask must have same shape as data"`. -/
def set_mask (img : Target_Image) (mask : Option (Arr Bool)) :
    Except String Target_Image :=
  match mask with
  | none => .ok { img with _mask := none }
  | some m =>
    if m.shape = img.data.shape then .ok { img with _mask := some m }
    else .error "AssertionError: mask must have same shape as data"

/-- Method `Target_Image.set_psf`: `None` clears the kernel; otherwise
`assert torch.all((torch.tensor(psf.shape) % 2) == 1), "psf must have odd shape"`. -/
def set_psf (img : Target_Image) (psf : Option (Arr ℚ)) :
    Except String Target_Image :=
  match psf with
  | none => .ok { img with _psf := none }
  | some p =>
    if p.rows % 2 = 1 ∧ p.cols % 2 = 1 then .ok { img with _psf := some p }
    else .error "AssertionError: psf must have odd shape"

/-- Constructor `Target_Image.__init__`: starting from the bare data it calls
`set_variance`, `set_mask` and `set_psf` on the keyword arguments (each
defaulting to `None`). -/
def construct (data : Arr ℚ) (variance : Option (Arr ℚ)) (mask : Option (Arr Bool))
    (psf : Option (Arr ℚ)) : Except String Target_Image := do
  let img : Target_Image := ⟨data, none, none, none⟩
  let img ← img.set_variance variance
  let img ← img.set_mask mask
  let img ← img.set_psf psf
  pure img

/-- Property `Target_Image.variance`: the stored plane when present, otherwise
`torch.ones_like(self.data)`. -/
def variance (img : Target_Image) : Arr ℚ :=
  match img._variance with
  | some v => v
  | none => onesLike img.data

/-- Property `Target_Image.mask`: the stored plane when present, otherwise
`torch.zeros_like(self.data, dtype=torch.bool)`. -/
def mask (img : Target_Image) : Arr Bool :=
  match img._mask with
  | some m => m
  | none => falseLike img.data

/-- Method `Target_Image.reduce`, restricted to the auxiliary planes it
computes itself (the data plane is reduced by the base class): the variance is
block-summed over the data's block grid, the mask is block-`amax`-ed, and the
PSF is block-summed over its own block grid.  Returns the
`(variance, mask, psf)` planes passed to `super().reduce`. -/
def reduce (img : Target_Image) (scale : Nat) :
    Option (Arr ℚ) × Option (Arr Bool) × Option (Arr ℚ) :=
  let MS := img.data.rows / scale
  let NS := img.data.cols / scale
  (img._variance.map (fun v => v.blockSumAt MS NS scale),
   img._mask.map (fun m => m.blockAnyAt MS NS scale),
   img._psf.map (fun p => p.blockSumAt (p.rows / scale) (p.cols / scale) scale))

/-- Method `Target_Image.expand`: the body is a single
`raise NotImplementedError("expand not available for Target_Image yet")`. -/
def expand (img : Target_Image) (padding : ℚ) : Except String Target_Image :=
  .error "NotImplementedError: expand not available for Target_Image yet"

end Target_Image

/-!
Jacobian engine (`Component_Model.jacobian`, `model_object.py`).

The sampled image, as a function of the free-parameter vector, is embedded as
a list of per-pixel arithmetic expressions `ModelExpr n` over `n` parameters
(constants, parameters, sums and products cover every pipeline stage the
claims quantify over).  Forward-mode differentiation as performed by
`torch.autograd.functional.jacobian(..., strategy="forward-mode",
vectorize=True)` is embedded by dual-number propagation:
- `fwdFull` carries one tangent entry per parameter through a single pass
  (the `"full"` jacobian mode, all parameters at once);
- `fwdSingle` carries a single scalar tangent seeded by one parameter's unit
  vector (the `"single"` mode, one parameter at a time, whose planes are then
  concatenated with `torch.cat(sub_jacs, dim=2)`).
-/

/-- Arithmetic expressions in `n` free parameters: the sampled image's pixels
as functions of the parameter vector. -/
inductive ModelExpr (n : Nat) where
  | const : ℚ → ModelExpr n
  | var : Fin n → ModelExpr n
  | add : ModelExpr n → ModelExpr n → ModelExpr n
  | mul : ModelExpr n → ModelExpr n → ModelExpr n

/-- Value of a pixel expression at the parameter vector `x`. -/
def evalE {n : Nat} (x : Fin n → ℚ) : ModelExpr n → ℚ
  | .const c => c
  | .var i => x i
  | .add a b => evalE x a + evalE x b
  | .mul a b => evalE x a * evalE x b

/-- Vectorized forward-mode tangent: one pass propagating a full tangent
vector, each parameter seeded with its unit vector (`"full"` jacobian mode). -/
def fwdFull {n : Nat} (x : Fin n → ℚ) : ModelExpr n → (Fin n → ℚ)
  | .const _ => fun _ => 0
  | .var i => fun p => if p = i then 1 else 0
  | .add a b => fun p => fwdFull x a p + fwdFull x b p
  | .mul a b => fun p => fwdFull x a p * evalE x b + evalE x a * fwdFull x b p

/-- Scalar forward-mode tangent under an arbitrary seed vector: one pass
propagating a single tangent scalar per sub-expression (`"single"` mode runs
this once per parameter). -/
def fwdSingle {n : Nat} (x seed : Fin n → ℚ) : ModelExpr n → ℚ
  | .const _ => 0
  | .var i => seed i
  | .add a b => fwdSingle x seed a + fwdSingle x seed b
  | .mul a b => fwdSingle x seed a * evalE x b + evalE x a * fwdSingle x seed b

/-- Unit seed vector for parameter `p`. -/
def seedBasis {n : Nat} (p : Fin n) : Fin n → ℚ := fun i => if p = i then 1 else 0

/-- The `"full"` branch of `Component_Model.jacobian`: all derivative planes in
one vectorized forward-mode pass. -/
def jacobian_full {n : Nat} (pixels : List (ModelExpr n)) (x : Fin n → ℚ) :
    List (Fin n → ℚ) :=
  pixels.map (fun e => fwdFull x e)

/-- The `"single"` branch of `Component_Model.jacobian`: one parameter's
derivative plane at a time, the per-parameter planes then concatenated. -/
def jacobian_single {n : Nat} (pixels : List (ModelExpr n)) (x : Fin n → ℚ) :
    List (Fin n → ℚ) :=
  pixels.map (fun e p => fwdSingle x (seedBasis p) e)

/-- Mode dispatch of `Component_Model.jacobian` (`model_object.py` lines
356-407): `"full"` and `"single"` compute; `"chunk"` raises
`NotImplementedError("chunk jacobian not avaialble yet")`; every other mode,
including `"finite"`, falls through to
`raise ValueError(f"Unrecognized jacobian mode for {self.name}: {self.jacobian_mode}")`. -/
def jacobian_dispatch {n : Nat} (name mode : String) (pixels : List (ModelExpr n))
    (x : Fin n → ℚ) : Except String (List (Fin n → ℚ)) :=
  if mode = "full" then .ok (jacobian_full pixels x)
  else if mode = "single" then .ok (jacobian_single pixels x)
  else if mode = "chunk" then .error "NotImplementedError: chunk jacobian not avaialble yet"
  else .error ("ValueError: Unrecognized jacobian mode for " ++ name ++ ": " ++ mode)

/-- PSF-mode dispatch at the head of `Component_Model.sample`
(`model_object.py` lines 193-246): `"window" in self.psf_mode` raises
`NotImplementedError` before any sampling; otherwise the `"full" in
self.psf_mode` branch or the direct branch produces the sampled image. -/
def sample_dispatch {Img : Type} (psf_mode : String) (fullBranch directBranch : Img) :
    Except String Img :=
  if strContains "window" psf_mode then
    .error "NotImplementedError: PSF convolution in sub-window not available yet"
  else if strContains "full" psf_mode then .ok fullBranch
  else .ok directBranch

/-!
Adaptive integrator (`Component_Model.integrate_model`, `model_object.py`
lines 264-327).  The image and window algebra it calls into
(`Model_Image`, `Window.overlap_frac`, `&`, `reduce`, `replace`) lives in
files outside the analysed sources, so those operations are abstracted into
an environment record; the claims quantified over here concern only the
guard conditions and the depth-decrementing recursion, which are fully
determined by `integrate_model` itself.
-/

/-- Environment for `integrate_model`: the operations it delegates to.
`overlap_frac` returns `none` when `Window.overlap_frac` raises the
`AssertionError` that `integrate_model` catches and turns into a return. -/
structure IntegrateEnv (Img Win : Type) where
  integrate_mode : String
  overlap_frac : Win → Win → Option ℚ
  windowOf : Img → Win
  inter : Win → Win → Win
  evalOn : Win → Img
  recursive_window : Win → Img → Win
  replaceReduce : Img → Img → Img

/-- Recursive structure of `Component_Model.integrate_model`: return the image
unchanged when `depth <= 0` or `"none" in self.integrate_mode` or the window
overlap fraction is non-positive (or its computation raises `AssertionError`);
otherwise evaluate the model on the finer sub-window, recurse with
`depth - 1`, and replace the integrated region. -/
def integrate_model {Img Win : Type} (env : IntegrateEnv Img Win) (working : Img)
    (window : Win) (depth : ℤ) : Img :=
  if h : depth ≤ 0 ∨ strContains "none" env.integrate_mode then working
  else
    match env.overlap_frac window (env.windowOf working) with
    | none => working
    | some f =>
      if f ≤ 0 then working
      else
        let working_window := env.inter window (env.windowOf working)
        let integrate_image := env.evalOn working_window
        let integrated := integrate_model env integrate_image
          (env.recursive_window window integrate_image) (depth - 1)
        env.replaceReduce working integrated
termination_by depth.toNat
decreasing_by
  have h1 : ¬ depth ≤ 0 := fun hl => h (Or.inl hl)
  omega

/-- Number of recursion levels `integrate_model` actually performs: 0 at every
guard exit, one more than the recursive call otherwise. -/
def integrate_levels {Img Win : Type} (env : IntegrateEnv Img Win) (working : Img)
    (window : Win) (depth : ℤ) : Nat :=
  if h : depth ≤ 0 ∨ strContains "none" env.integrate_mode then 0
  else
    match env.overlap_frac window (env.windowOf working) with
    | none => 0
    | some f =>
      if f ≤ 0 then 0
      else
        let working_window := env.inter window (env.windowOf working)
        let integrate_image := env.evalOn working_window
        1 + integrate_levels env integrate_image
          (env.recursive_window window integrate_image) (depth - 1)
termination_by depth.toNat
decreasing_by
  have h1 : ¬ depth ≤ 0 := fun hl => h (Or.inl hl)
  omega

/-!
Group composition (`Group_Model.jacobian`, `group_model_object.py` lines
145-158): allocate a zero plane stack over the group window, then per
sub-model scatter its local jacobian into the pixel index range obtained from
its window against the group window.
-/

/-- A window on the sky: lower-left origin and physical extent, both 2D. -/
structure WindowQ where
  origin : ℚ × ℚ
  shape : ℚ × ℚ

/-- Modelled from the spec: `Window._get_indices` is defined in the window
module, which is not among the analysed sources; §4.1 of the spec states that
a window is converted against a reference image/window into integer pixel
index ranges `[row_lo, row_hi) × [col_lo, col_hi)` by dividing the origin
offset and extent by the pixelscale and rounding to the nearest pixel
boundary with a single consistent rounding rule. -/
def window_get_indices (w ref : WindowQ) (pixelscale : ℚ) : (ℤ × ℤ) × (ℤ × ℤ) :=
  ((pyRound ((w.origin.1 - ref.origin.1) / pixelscale),
    pyRound ((w.origin.1 + w.shape.1 - ref.origin.1) / pixelscale)),
   (pyRound ((w.origin.2 - ref.origin.2) / pixelscale),
    pyRound ((w.origin.2 + w.shape.2 - ref.origin.2) / pixelscale)))

/-- One sub-model's contribution to the group jacobian: its window, its number
of (unlocked) parameter entries, and its local jacobian planes indexed
`(row, col, plane)` relative to its own window. -/
structure SubModelJac where
  window : WindowQ
  nparams : Nat
  jac : Nat → Nat → Nat → ℚ

/-- Membership of the pixel `(r, c)` in an index range
`[row_lo, row_hi) × [col_lo, col_hi)`. -/
def inIndexRange (rng : (ℤ × ℤ) × (ℤ × ℤ)) (r c : Nat) : Bool :=
  decide (rng.1.1 ≤ (r : ℤ)) && decide ((r : ℤ) < rng.1.2) &&
  decide (rng.2.1 ≤ (c : ℤ)) && decide ((c : ℤ) < rng.2.2)

/-- One iteration of the scatter loop in `Group_Model.jacobian`:
`full_jac[indices[0], indices[1], i] = sub_jac[:, :, i - vstart]` for the
plane indices `i` in `[vstart, vend)` belonging to this sub-model. -/
def scatter_sub (gw : WindowQ) (ps : ℚ) (vstart : Nat) (s : SubModelJac)
    (full : Nat → Nat → Nat → ℚ) : Nat → Nat → Nat → ℚ :=
  let rng := window_get_indices s.window gw ps
  fun r c i =>
    if vstart ≤ i ∧ i < vstart + s.nparams ∧ inIndexRange rng r c then
      s.jac (r - rng.1.1.toNat) (c - rng.2.1.toNat) (i - vstart)
    else full r c i

/-- The scatter loop of `Group_Model.jacobian` over the sub-model list,
threading the running plane offset `vstart`. -/
def group_jacobian_go (gw : WindowQ) (ps : ℚ) :
    List SubModelJac → Nat → (Nat → Nat → Nat → ℚ) → (Nat → Nat → Nat → ℚ)
  | [], _, full => full
  | s :: rest, vstart, full =>
    group_jacobian_go gw ps rest (vstart + s.nparams) (scatter_sub gw ps vstart s full)

/-- `Group_Model.jacobian`: allocate the all-zero plane stack over the group
window and run the scatter loop over the sub-models in list order. -/
def group_jacobian (gw : WindowQ) (ps : ℚ) (subs : List SubModelJac) :
    Nat → Nat → Nat → ℚ :=
  group_jacobian_go gw ps subs 0 (fun _ _ _ => 0)

/-- Global plane offset of sub-model `k`: the sum of the parameter counts of
the sub-models before it (the value of `vstart` when `k` is processed). -/
def plane_offset (subs : List SubModelJac) (k : Nat) : Nat :=
  ((subs.take k).map (fun s => s.nparams)).sum

/-- The value the scatter loop leaves at pixel `(r, c)` of a plane owned by
sub-model `s` whose planes start at global offset `offs`: the sub-model's
local jacobian entry inside its index range, the fallback (zero for the
freshly allocated stack) outside it. -/
def scatter_value (gw : WindowQ) (ps : ℚ) (s : SubModelJac) (offs r c i : Nat)
    (fallback : ℚ) : ℚ :=
  let rng := window_get_indices s.window gw ps
  if inIndexRange rng r c then
    s.jac (r - rng.1.1.toNat) (c - rng.2.1.toNat) (i - offs)
  else fallback

/-!
Center-of-mass initialization (`autoprof/utils/initialize/center.py` and the
center setup of `Component_Model.initialize`, `model_object.py` lines
108-153).  A NaN value produced by a `0/0` division is modelled by `none`;
a python exception is an `Except.error`.
-/

/-- Pixel index ranges of one `center_of_mass` iteration:
`[int(round(c - window/2)), int(round(c + window/2))]` per axis. -/
def com_ranges (c : ℚ × ℚ) (window : Nat) : (ℤ × ℤ) × (ℤ × ℤ) :=
  ((pyRound (c.1 - (window : ℚ) / 2), pyRound (c.1 + (window : ℚ) / 2)),
   (pyRound (c.2 - (window : ℚ) / 2), pyRound (c.2 + (window : ℚ) / 2)))

/-- Weighted pixel sum over the index ranges of one `center_of_mass`
iteration; `weight` is 1 for the denominator and the meshgrid row/column index
for the two numerators. -/
def com_sum (img : Arr ℚ) (rng : (ℤ × ℤ) × (ℤ × ℤ)) (weight : Nat → Nat → ℚ) : ℚ :=
  ((List.range (rng.1.2 - rng.1.1).toNat).map (fun a =>
    ((List.range (rng.2.2 - rng.2.1).toNat).map (fun b =>
      img.entry (rng.1.1.toNat + a) (rng.2.1.toNat + b) * weight a b)).sum)).sum

/-- The iteration loop of `center_of_mass` (`for iteration in range(100)`).
A `none` center is the NaN state: entering an iteration with it crashes at
`int(round(...))` with `ValueError`.  A zero denominator makes the new center
NaN (numpy emits a warning, not an exception, for `0/0`); the convergence
test `nan < 0.1` is `False`, so the loop continues with the NaN center.
On the edge-of-image check the function returns `init_center`; on
convergence it breaks and returns the PREVIOUS center (the assignment
`center = new_center` sits after the break). -/
def com_loop (img : Arr ℚ) (init : ℚ × ℚ) (window : Nat) :
    Nat → Option (ℚ × ℚ) → Except String (Option (ℚ × ℚ))
  | 0, center => .ok center
  | _ + 1, none => .error "ValueError: cannot convert float NaN to integer"
  | fuel + 1, some c =>
      let rng := com_ranges c window
      if rng.1.1 < 0 ∨ rng.2.1 < 0 ∨ (img.rows : ℤ) ≤ rng.1.2 ∨ (img.cols : ℤ) ≤ rng.2.2 then
        .ok (some init)
      else
        let denom := com_sum img rng (fun _ _ => 1)
        if denom = 0 then
          com_loop img init window fuel none
        else
          let n0 := (rng.1.1 : ℚ) + com_sum img rng (fun a _ => (a : ℚ)) / denom
          let n1 := (rng.2.1 : ℚ) + com_sum img rng (fun _ b => (b : ℚ)) / denom
          if |c.1 - n0| + |c.2 - n1| < 1/10 then .ok (some c)
          else com_loop img init window fuel (some (n0, n1))

/-- `center_of_mass(center, image, window=None)`: default window size
`max(min(int(min(image.shape)/10), 20), 6)` rounded up to even, then the
100-iteration refinement loop starting from the given center. -/
def center_of_mass (center : ℚ × ℚ) (img : Arr ℚ) (window : Option Nat) :
    Except String (Option (ℚ × ℚ)) :=
  let w0 := match window with
    | some w => w
    | none => max (min (min img.rows img.cols / 10) 20) 6
  let w := w0 + w0 % 2
  com_loop img center w 100 (some center)

/-- The center setup of `Component_Model.initialize`: run `center_of_mass`
from the initial index center; if the result lies outside `[0, shape)` on
either axis, warn and keep the window center; otherwise convert the indices
back to coordinates and set them as the model center.  A NaN center-of-mass
(`none`) passes the out-of-range guard undetected, because numpy comparisons
with NaN are `False` on both sides, and is set as the model center; an
exception inside `center_of_mass` propagates. -/
def initialize_center (window_center icenter : ℚ × ℚ) (data : Arr ℚ)
    (index_to_coord : ℚ × ℚ → ℚ × ℚ) : Except String (Option (ℚ × ℚ)) := do
  let com ← center_of_mass icenter data none
  match com with
  | none => pure none
  | some c =>
    if c.1 < 0 ∨ c.2 < 0 ∨ (data.rows : ℚ) ≤ c.1 ∨ (data.cols : ℚ) ≤ c.2 then
      pure (some window_center)
    else
      pure (some (index_to_coord c))

/-!
Concrete fixtures used by the evaluation witnesses.
-/

/-- A 60 by 60 all-zero target area: the pixel sum over any center-of-mass
search window inside it is zero. -/
def zeros60 : Arr ℚ := ⟨60, 60, fun _ _ => 0⟩

/-- A concrete integration environment over rational images and trivial
windows, with integration enabled and full overlap. -/
def envC4 : IntegrateEnv ℚ Unit where
  integrate_mode := "window"
  overlap_frac := fun _ _ => some 1
  windowOf := fun _ => ()
  inter := fun _ _ => ()
  evalOn := fun _ => 0
  recursive_window := fun _ _ => ()
  replaceReduce := fun w i => w + i

/-- A concrete group window: origin at the sky origin, extent 4 by 4. -/
def gwW : WindowQ := ⟨(0, 0), (4, 4)⟩

/-- Two concrete sub-model jacobian contributions: the first covers pixel
rows and columns [0, 2) with one parameter plane, the second covers
[1, 2) with two parameter planes. -/
def subsW : List SubModelJac :=
  [⟨⟨(0, 0), (2, 2)⟩, 1, fun _ _ _ => 3⟩,
   ⟨⟨(1, 1), (1, 1)⟩, 2, fun _ _ _ => 7⟩]

/-- A concrete 2 by 2 target image with all three auxiliary planes set. -/
def imgW : Target_Image :=
  ⟨⟨2, 2, fun i j => (i : ℚ) + j⟩,
   some ⟨2, 2, fun _ _ => 2⟩,
   some ⟨2, 2, fun i j => decide (i = 0 ∧ j = 1)⟩,
   some ⟨2, 2, fun _ _ => 1⟩⟩

/-!
Theorems.
-/

/-- C6: a `Target_Image` constructed without a variance plane reads its
`variance` property as an all-ones array with the data's shape, and one
constructed without a mask reads its `mask` property as an all-false boolean
array with the data's shape. -/
theorem C6_default_variance_and_mask (data : Arr ℚ) :
    ∃ img : Target_Image, Target_Image.construct data none none none = .ok img ∧
      img.variance = onesLike data ∧ img.mask = falseLike data ∧
      img.variance.shape = data.shape ∧ img.mask.shape = data.shape ∧
      (∀ i j, img.variance.entry i j = 1) ∧ (∀ i j, img.mask.entry i j = false) :=
  ⟨⟨data, none, none, none⟩, rfl, rfl, rfl, rfl, rfl, fun _ _ => rfl, fun _ _ => rfl⟩

/-- C7: setting a non-`None` variance or mask whose shape differs from the
data's shape fails immediately with the shape-mismatch assertion, and setting
a non-`None` PSF that is even-sized along either axis fails immediately with
the odd-shape assertion; no branch broadcasts or resamples the array. -/
theorem C7_shape_and_parity_rejected (img : Target_Image) (v : Arr ℚ) (m : Arr Bool)
    (p : Arr ℚ) (hv : v.shape ≠ img.data.shape) (hm : m.shape ≠ img.data.shape)
    (hp : p.rows % 2 = 0 ∨ p.cols % 2 = 0) :
    img.set_variance (some v) = .error "AssertionError: variance must have same shape as data" ∧
    img.set_mask (some m) = .error "AssertionError: mask must have same shape as data" ∧
    img.set_psf (some p) = .error "AssertionError: psf must have odd shape" := by
  refine ⟨?_, ?_, ?_⟩
  · simp [Target_Image.set_variance, hv]
  · simp [Target_Image.set_mask, hm]
  · have hodd : ¬ (p.rows % 2 = 1 ∧ p.cols % 2 = 1) := by omega
    simp [Target_Image.set_psf, hodd]

/-- Witness for C7 on concrete mismatched arrays against the 2 by 2 image. -/
theorem C7_witness :
    ((⟨1, 2, fun _ _ => 0⟩ : Arr ℚ).shape ≠ imgW.data.shape ∧
      (⟨3, 2, fun _ _ => false⟩ : Arr Bool).shape ≠ imgW.data.shape ∧
      ((⟨2, 3, fun _ _ => 0⟩ : Arr ℚ).rows % 2 = 0 ∨ (⟨2, 3, fun _ _ => 0⟩ : Arr ℚ).cols % 2 = 0)) ∧
    imgW.set_variance (some ⟨1, 2, fun _ _ => 0⟩) =
      .error "AssertionError: variance must have same shape as data" ∧
    imgW.set_mask (some ⟨3, 2, fun _ _ => false⟩) =
      .error "AssertionError: mask must have same shape as data" ∧
    imgW.set_psf (some ⟨2, 3, fun _ _ => 0⟩) =
      .error "AssertionError: psf must have odd shape" := by
  have h := C7_shape_and_parity_rejected imgW ⟨1, 2, fun _ _ => 0⟩ ⟨3, 2, fun _ _ => false⟩
    ⟨2, 3, fun _ _ => 0⟩ (by decide) (by decide) (Or.inl (by decide))
  exact ⟨⟨by decide, by decide, Or.inl (by decide)⟩, h.1, h.2.1, h.2.2⟩

/-- Counterexample to C9 as stated: calling `expand` on a concrete
`Target_Image` does not succeed; it raises `NotImplementedError`. -/
theorem C9_counterexample :
    Target_Image.expand imgW 1 =
      .error "NotImplementedError: expand not available for Target_Image yet" := rfl

/-- C9 (amended): `Target_Image.expand` fails for every image and padding with
`NotImplementedError("expand not available for Target_Image yet")`; padding a
`Target_Image` is not supported. -/
theorem C9_expand_raises (img : Target_Image) (padding : ℚ) :
    Target_Image.expand img padding =
      .error "NotImplementedError: expand not available for Target_Image yet" := rfl

/-- C10: on an image carrying all three auxiliary planes, `reduce` block-sums
the variance over the data's block grid, block-sums the PSF over its own block
grid, and block-maximises the mask; a reduced mask pixel is set if and only if
at least one fine pixel of its block is set. -/
theorem C10_reduce_aux_planes (img : Target_Image) (scale : Nat) (v : Arr ℚ)
    (m : Arr Bool) (p : Arr ℚ) (hv : img._variance = some v) (hm : img._mask = some m)
    (hp : img._psf = some p) :
    img.reduce scale =
      (some (v.blockSumAt (img.data.rows / scale) (img.data.cols / scale) scale),
       some (m.blockAnyAt (img.data.rows / scale) (img.data.cols / scale) scale),
       some (p.blockSumAt (p.rows / scale) (p.cols / scale) scale)) ∧
    (∀ i j, (m.blockAnyAt (img.data.rows / scale) (img.data.cols / scale) scale).entry i j = true ↔
      ∃ a, a < scale ∧ ∃ b, b < scale ∧ m.entry (i * scale + a) (j * scale + b) = true) := by
  constructor
  · simp [Target_Image.reduce, hv, hm, hp]
  · intro i j
    simp [Arr.blockAnyAt, List.any_eq_true, List.mem_range]

/-- Witness for C10 on the concrete 2 by 2 image, reduced by 2: the one
reduced mask pixel is set because fine pixel (0, 1) of its block is set. -/
theorem C10_witness :
    imgW.reduce 2 =
      (some ((⟨2, 2, fun _ _ => 2⟩ : Arr ℚ).blockSumAt 1 1 2),
       some ((⟨2, 2, fun i j => decide (i = 0 ∧ j = 1)⟩ : Arr Bool).blockAnyAt 1 1 2),
       some ((⟨2, 2, fun _ _ => 1⟩ : Arr ℚ).blockSumAt 1 1 2)) ∧
    ((⟨2, 2, fun i j => decide (i = 0 ∧ j = 1)⟩ : Arr Bool).blockAnyAt 1 1 2).entry 0 0 = true := by
  have h := C10_reduce_aux_planes imgW 2 ⟨2, 2, fun _ _ => 2⟩
    ⟨2, 2, fun i j => decide (i = 0 ∧ j = 1)⟩ ⟨2, 2, fun _ _ => 1⟩ rfl rfl rfl
  refine ⟨h.1, ?_⟩
  exact (h.2 0 0).mpr ⟨0, by decide, 1, by decide, by decide⟩

/-- C1: requesting the `"finite"` jacobian mode does not run a
finite-difference computation; the dispatch has no `"finite"` branch, so the
call falls into the final `else` and raises
`ValueError("Unrecognized jacobian mode for ...")`, contradicting the mode's
own documentation in the `jacobian_mode` class attribute comment. -/
theorem C1_finite_mode_rejected :
    jacobian_dispatch "sersic" "finite" ([] : List (ModelExpr 1)) (fun _ => 0) =
      .error "ValueError: Unrecognized jacobian mode for sersic: finite" := rfl

/-- C2: when `"window" in psf_mode`, `sample` raises `NotImplementedError`
before evaluating either sampling branch, and the `"chunk"` jacobian mode
raises `NotImplementedError`; neither call returns an `ok` result of a
different mode. -/
theorem C2_unsupported_modes {Img : Type} {n : Nat} (psf_mode name : String)
    (fullBranch directBranch : Img) (pixels : List (ModelExpr n)) (x : Fin n → ℚ)
    (hw : strContains "window" psf_mode = true) :
    sample_dispatch psf_mode fullBranch directBranch =
      .error "NotImplementedError: PSF convolution in sub-window not available yet" ∧
    jacobian_dispatch name "chunk" pixels x =
      .error "NotImplementedError: chunk jacobian not avaialble yet" := by
  refine ⟨?_, rfl⟩
  simp [sample_dispatch, hw]

/-- Witness for C2 at the concrete PSF mode string `"window"`. -/
theorem C2_witness :
    strContains "window" "window" = true ∧
    sample_dispatch "window" (0 : ℚ) 0 =
      .error "NotImplementedError: PSF convolution in sub-window not available yet" ∧
    jacobian_dispatch "m" "chunk" ([] : List (ModelExpr 1)) (fun _ => 0) =
      .error "NotImplementedError: chunk jacobian not avaialble yet" := by
  have h := C2_unsupported_modes "window" "m" (0 : ℚ) 0 ([] : List (ModelExpr 1))
    (fun _ => 0) (by decide)
  exact ⟨by decide, h.1, h.2⟩

/-- Forward-mode tangents are linear in the seed: the plane for parameter `p`
of the vectorized all-at-once pass equals the scalar pass seeded with `p`'s
unit vector. -/
theorem fwdFull_eq_fwdSingle {n : Nat} (x : Fin n → ℚ) (e : ModelExpr n) (p : Fin n) :
    fwdFull x e p = fwdSingle x (seedBasis p) e := by
  induction e with
  | const c => rfl
  | var i => rfl
  | add a b iha ihb => simp [fwdFull, fwdSingle, iha, ihb]
  | mul a b iha ihb => simp [fwdFull, fwdSingle, iha, ihb]

/-- C3: at fixed parameter values the `"full"` jacobian mode and the
`"single"` jacobian mode return equal derivative-plane stacks, pixel by pixel
and parameter by parameter, and the dispatch in `"full"` mode therefore
returns exactly the stack the `"single"` mode would. -/
theorem C3_full_single_equal {n : Nat} (pixels : List (ModelExpr n)) (x : Fin n → ℚ) :
    jacobian_full pixels x = jacobian_single pixels x ∧
    ∀ name, jacobian_dispatch name "full" pixels x = .ok (jacobian_single pixels x) := by
  have hmain : jacobian_full pixels x = jacobian_single pixels x := by
    unfold jacobian_full jacobian_single
    congr 1
    funext e
    funext p
    exact fwdFull_eq_fwdSingle x e p
  refine ⟨hmain, fun name => ?_⟩
  show Except.ok (jacobian_full pixels x) = _
  rw [hmain]

/-- Helper for C4: the number of recursion levels `integrate_model` performs
is bounded by `depth.toNat`, proved by strong induction on a fuel bound. -/
theorem integrate_levels_le {Img Win : Type} (env : IntegrateEnv Img Win) :
    ∀ (fuel : Nat) (working : Img) (window : Win) (depth : ℤ), depth.toNat ≤ fuel →
      integrate_levels env working window depth ≤ depth.toNat := by
  intro fuel
  induction fuel with
  | zero =>
    intro working window depth hd
    have h0 : depth ≤ 0 := by omega
    rw [integrate_levels]
    rw [dif_pos (Or.inl h0)]
    exact Nat.zero_le _
  | succ n ih =>
    intro working window depth hd
    rw [integrate_levels]
    by_cases hg : (depth ≤ 0 ∨ strContains "none" env.integrate_mode = true)
    · rw [dif_pos hg]
      exact Nat.zero_le _
    · rw [dif_neg hg]
      have hpos : ¬ depth ≤ 0 := fun hl => hg (Or.inl hl)
      cases hov : env.overlap_frac window (env.windowOf working) with
      | none => exact Nat.zero_le _
      | some f =>
        by_cases hf : f ≤ 0
        · show (if f ≤ 0 then 0 else _) ≤ _
          rw [if_pos hf]
          exact Nat.zero_le _
        · show (if f ≤ 0 then 0 else _) ≤ _
          rw [if_neg hf]
          show 1 + integrate_levels env _ _ (depth - 1) ≤ _
          have hrec := ih (env.evalOn (env.inter window (env.windowOf working)))
            (env.recursive_window window (env.evalOn (env.inter window (env.windowOf working))))
            (depth - 1) (by omega)
          omega

/-- C4: `integrate_model` returns the working image unchanged when the depth
is zero or negative, when `"none"` occurs in the integrate mode, and when the
integration window has non-positive overlap fraction with the image's window
(including when the overlap computation raises `AssertionError`); and since
the recursive call always decrements the depth, the number of recursion
levels is at most `depth`, for every environment of image/window operations. -/
theorem C4_integrate_guards_and_termination {Img Win : Type} (env : IntegrateEnv Img Win)
    (working : Img) (window : Win) (depth : ℤ) :
    (depth ≤ 0 → integrate_model env working window depth = working) ∧
    (strContains "none" env.integrate_mode = true →
      integrate_model env working window depth = working) ∧
    (env.overlap_frac window (env.windowOf working) = none →
      integrate_model env working window depth = working) ∧
    (∀ f, env.overlap_frac window (env.windowOf working) = some f → f ≤ 0 →
      integrate_model env working window depth = working) ∧
    integrate_levels env working window depth ≤ depth.toNat := by
  refine ⟨?_, ?_, ?_, ?_, integrate_levels_le env depth.toNat working window depth le_rfl⟩
  · intro h
    rw [integrate_model, dif_pos (Or.inl h)]
  · intro h
    rw [integrate_model, dif_pos (Or.inr h)]
  · intro h
    rw [integrate_model]
    by_cases hg : (depth ≤ 0 ∨ strContains "none" env.integrate_mode = true)
    · rw [dif_pos hg]
    · rw [dif_neg hg, h]
  · intro f hov hf
    rw [integrate_model]
    by_cases hg : (depth ≤ 0 ∨ strContains "none" env.integrate_mode = true)
    · rw [dif_pos hg]
    · rw [dif_neg hg, hov]
      show (if f ≤ 0 then working else _) = working
      rw [if_pos hf]

/-- Witness for C4 in the concrete environment: a zero or negative depth
leaves the image untouched, and two levels of depth perform at most two
recursions. -/
theorem C4_witness :
    integrate_model envC4 (5 : ℚ) () 0 = 5 ∧
    integrate_model envC4 (5 : ℚ) () (-3) = 5 ∧
    integrate_levels envC4 (5 : ℚ) () 2 ≤ 2 := by
  refine ⟨(C4_integrate_guards_and_termination envC4 5 () 0).1 (by decide),
    (C4_integrate_guards_and_termination envC4 5 () (-3)).1 (by decide), ?_⟩
  have h := (C4_integrate_guards_and_termination envC4 5 () 2).2.2.2.2
  simpa using h

/-- Helper for C5: sub-models processed after plane offset `vstart` never
touch plane indices below `vstart`. -/
theorem group_jacobian_go_lower (gw : WindowQ) (ps : ℚ) :
    ∀ (subs : List SubModelJac) (vstart : Nat) (full : Nat → Nat → Nat → ℚ) (r c i : Nat),
      i < vstart → group_jacobian_go gw ps subs vstart full r c i = full r c i := by
  intro subs
  induction subs with
  | nil => intro vstart full r c i hi; rfl
  | cons s rest ih =>
    intro vstart full r c i hi
    show group_jacobian_go gw ps rest (vstart + s.nparams)
      (scatter_sub gw ps vstart s full) r c i = full r c i
    rw [ih (vstart + s.nparams) _ r c i (by omega)]
    simp only [scatter_sub]
    rw [if_neg]
    intro hcon
    omega

/-- Helper for C5: the scatter loop started at offset `vstart` leaves, on any
plane index belonging to sub-model `k`, exactly that sub-model's scattered
local jacobian over the accumulator. -/
theorem group_jacobian_go_spec (gw : WindowQ) (ps : ℚ) :
    ∀ (subs : List SubModelJac) (vstart : Nat) (full : Nat → Nat → Nat → ℚ)
      (k : Nat) (hk : k < subs.length) (r c i : Nat),
      vstart + plane_offset subs k ≤ i →
      i < vstart + plane_offset subs k + (subs.get ⟨k, hk⟩).nparams →
      group_jacobian_go gw ps subs vstart full r c i =
        scatter_value gw ps (subs.get ⟨k, hk⟩) (vstart + plane_offset subs k) r c i
          (full r c i) := by
  intro subs
  induction subs with
  | nil =>
    intro vstart full k hk
    exact absurd hk (by simp)
  | cons s rest ih =>
    intro vstart full k hk r c i hlo hhi
    cases k with
    | zero =>
      have hoff : plane_offset (s :: rest) 0 = 0 := rfl
      have hget0 : (s :: rest).get ⟨0, hk⟩ = s := rfl
      rw [hoff] at hlo hhi
      rw [hget0] at hhi ⊢
      simp only [Nat.add_zero] at hlo hhi ⊢
      show group_jacobian_go gw ps rest (vstart + s.nparams)
        (scatter_sub gw ps vstart s full) r c i = _
      rw [group_jacobian_go_lower gw ps rest (vstart + s.nparams) _ r c i (by omega)]
      simp only [scatter_sub, scatter_value, hoff, Nat.add_zero, List.get]
      by_cases hin :
          inIndexRange (window_get_indices s.window gw ps) r c = true
      · rw [if_pos ⟨by omega, by omega, hin⟩, if_pos hin]
      · rw [if_neg, if_neg hin]
        intro hcon
        exact hin hcon.2.2
    | succ kp =>
      have hkp : kp < rest.length := by simpa using hk
      have hoff : plane_offset (s :: rest) (kp + 1) = s.nparams + plane_offset rest kp := by
        simp [plane_offset, List.take_succ_cons]
      have hget : (s :: rest).get ⟨kp + 1, hk⟩ = rest.get ⟨kp, hkp⟩ := rfl
      rw [hoff] at hlo hhi
      rw [hget] at hhi
      show group_jacobian_go gw ps rest (vstart + s.nparams)
        (scatter_sub gw ps vstart s full) r c i = _
      rw [ih (vstart + s.nparams) _ kp hkp r c i (by omega) (by omega)]
      have hfall : scatter_sub gw ps vstart s full r c i = full r c i := by
        simp only [scatter_sub]
        rw [if_neg]
        intro hcon
        omega
      rw [hfall, hget, hoff]
      have harith : vstart + s.nparams + plane_offset rest kp =
          vstart + (s.nparams + plane_offset rest kp) := by omega
      rw [harith]

/-- C5: `Group_Model.jacobian` starts from an all-zero plane stack and, for a
plane index `i` belonging to sub-model `k`, the resulting stack holds the
sub-model's local jacobian entry at every pixel inside the index range
obtained by converting the sub-model's window against the group window at the
target pixelscale, and zero at every pixel outside that range. -/
theorem C5_group_scatter (gw : WindowQ) (ps : ℚ) (subs : List SubModelJac)
    (k : Nat) (hk : k < subs.length) (r c i : Nat)
    (hlo : plane_offset subs k ≤ i)
    (hhi : i < plane_offset subs k + (subs.get ⟨k, hk⟩).nparams) :
    group_jacobian gw ps subs r c i =
      scatter_value gw ps (subs.get ⟨k, hk⟩) (plane_offset subs k) r c i 0 := by
  have h := group_jacobian_go_spec gw ps subs 0 (fun _ _ _ => 0) k hk r c i
    (by omega) (by omega)
  simpa [group_jacobian] using h

/-- Witness for C5 on the concrete two-sub-model group: plane 1 belongs to the
second sub-model, and pixel (1, 1) lies inside its index range, so the group
stack holds its local jacobian value 7 there. -/
theorem C5_witness :
    plane_offset subsW 1 ≤ 1 ∧
    group_jacobian gwW 1 subsW 1 1 1 =
      scatter_value gwW 1 (subsW.get ⟨1, by decide⟩) (plane_offset subsW 1) 1 1 1 0 ∧
    scatter_value gwW 1 (subsW.get ⟨1, by decide⟩) (plane_offset subsW 1) 1 1 1 0 = 7 := by
  refine ⟨by decide, C5_group_scatter gwW 1 subsW 1 (by decide) 1 1 1 (by decide) (by decide), ?_⟩
  have h1 : Int.fdiv 1 1 = 1 := by decide
  have h2 : Int.fdiv 2 1 = 2 := by decide
  norm_num [scatter_value, window_get_indices, inIndexRange, pyRound, ratFloor,
    gwW, subsW, plane_offset, h1, h2]

/-- Helper for C8: entering a `center_of_mass` iteration with a NaN center
crashes at `int(round(...))`. -/
theorem com_loop_nan (img : Arr ℚ) (init : ℚ × ℚ) (window fuel : Nat) :
    com_loop img init window (fuel + 1) none =
      .error "ValueError: cannot convert float NaN to integer" := rfl

/-- Helper for C8: an iteration that passes the edge check but finds a zero
pixel-sum denominator continues the loop with the NaN center. -/
theorem com_loop_denom_zero_step (img : Arr ℚ) (init : ℚ × ℚ) (window fuel : Nat)
    (c : ℚ × ℚ)
    (hedge : ¬ ((com_ranges c window).1.1 < 0 ∨ (com_ranges c window).2.1 < 0 ∨
      (img.rows : ℤ) ≤ (com_ranges c window).1.2 ∨
      (img.cols : ℤ) ≤ (com_ranges c window).2.2))
    (hden : com_sum img (com_ranges c window) (fun _ _ => 1) = 0) :
    com_loop img init window (fuel + 1) (some c) = com_loop img init window fuel none := by
  rw [com_loop]
  simp only [if_neg hedge, if_pos hden]

/-- C8: on a 60 by 60 all-zero target area with initial center (30, 30), the
pixel sum over the center-of-mass search window is zero; the code divides by
it, making the center NaN, and the next iteration crashes with
`ValueError("cannot convert float NaN to integer")`, which propagates out of
the model's center initialization instead of falling back to the window
center with a warning. -/
theorem C8_zero_denominator_crash :
    center_of_mass (30, 30) zeros60 none =
      .error "ValueError: cannot convert float NaN to integer" ∧
    initialize_center (30, 30) (30, 30) zeros60 (fun c => c) =
      .error "ValueError: cannot convert float NaN to integer" := by
  have h27 : Int.fdiv 27 1 = 27 := by decide
  have h33 : Int.fdiv 33 1 = 33 := by decide
  have hr : com_ranges (30, 30) 6 = ((27, 33), (27, 33)) := by
    norm_num [com_ranges, pyRound, ratFloor, h27, h33]
  have hedge : ¬ ((com_ranges ((30 : ℚ), (30 : ℚ)) 6).1.1 < 0 ∨
      (com_ranges ((30 : ℚ), (30 : ℚ)) 6).2.1 < 0 ∨
      (zeros60.rows : ℤ) ≤ (com_ranges ((30 : ℚ), (30 : ℚ)) 6).1.2 ∨
      (zeros60.cols : ℤ) ≤ (com_ranges ((30 : ℚ), (30 : ℚ)) 6).2.2) := by
    rw [hr]
    decide
  have htn : ((33 : ℤ) - 27).toNat = 6 := by decide
  have hden : com_sum zeros60 (com_ranges (30, 30) 6) (fun _ _ => 1) = 0 := by
    rw [hr]
    simp [com_sum, zeros60, htn]
  have hcom : center_of_mass (30, 30) zeros60 none =
      .error "ValueError: cannot convert float NaN to integer" := by
    show com_loop zeros60 (30, 30) 6 100 (some (30, 30)) = _
    rw [show (100 : Nat) = 99 + 1 from rfl]
    rw [com_loop_denom_zero_step zeros60 (30, 30) 6 99 (30, 30) hedge hden]
    exact com_loop_nan zeros60 (30, 30) 6 98
  refine ⟨hcom, ?_⟩
  unfold initialize_center
  rw [hcom]
  rfl
